import Mathlib

/-!
Verification of the fetch orchestration engine of puppeteer-real-browser-hono.

The development shallowly embeds the orchestration logic of `src/lib.ts`
and the HTTP handler of `src/index.ts`:

* the exponential backoff and retry loop of `fetchSingleUrlWithRetry`;
* the Promise.any race between the response-interception strategy and the
  DOM-polling strategy inside `fetchSingleUrl`;
* the acquire/open/close/release discipline of `fetchSingleUrl` and
  `fetchRawResponse` around the page semaphore;
* the raw path `getRawResponse` / `fetchRawResponse`;
* the request handler `app.get("/")` with its validation, cache
  consultation and response mapping.

The repository imports `./semaphore.js` and `./cache.js`, whose sources are
not part of the repository snapshot; the counting semaphore and the LRU/TTL
response cache are therefore modelled from the specification (marked
`Modelled from the spec:` on the corresponding definitions).
-/

namespace PuppeteerHono

/-! ## Backoff and retry (lib.ts, fetchSingleUrlWithRetry) -/

/-- Backoff wait computed in `fetchSingleUrlWithRetry` (lib.ts line 255):
`Math.min(1000 * Math.pow(2, attempt - 1), 5000)` where `attempt` is the
number of the attempt that just failed. -/
def waitTime (attempt : Nat) : Nat :=
  min (1000 * 2 ^ (attempt - 1)) 5000

/-- Default value of the `maxRetries` parameter of
`fetchSingleUrlWithRetry` (lib.ts line 228). -/
def maxRetriesDefault : Nat := 3

/-- Result of running the retry loop: the final outcome, how many attempts
were actually performed, and the list of backoff delays slept between
attempts, in order. -/
structure RetryOutcome (E A : Type) where
  result : Except E A
  attemptsMade : Nat
  delays : List Nat

/-- One iteration structure of the retry loop of `fetchSingleUrlWithRetry`
(lib.ts lines 232-259). `outcomes k` is the outcome of attempt number `k`
(the body `fetchSingleUrl` either returns content or throws). `attempt` is
the current attempt number, the second argument the number of attempts
still allowed (including the current one). Mirrors: on success return; on
failure rethrow if `attempt === maxRetries`, otherwise sleep
`waitTime attempt` and continue. `none` corresponds to the loop body never
running (zero attempts allowed), in which case the JS code throws the
undefined `lastError`. -/
def retryGo (outcomes : Nat → Except E A) : Nat → Nat → Option (RetryOutcome E A)
  | _, 0 => none
  | attempt, remaining + 1 =>
    match outcomes attempt with
    | .ok a => some ⟨.ok a, 1, []⟩
    | .error e =>
      if remaining = 0 then
        some ⟨.error e, 1, []⟩
      else
        match retryGo outcomes (attempt + 1) remaining with
        | none => none
        | some r => some ⟨r.result, r.attemptsMade + 1, waitTime attempt :: r.delays⟩

/-- The retry wrapper `fetchSingleUrlWithRetry` (lib.ts lines 222-262):
attempts are numbered 1 .. `maxRetries`. -/
def fetchSingleUrlWithRetry (outcomes : Nat → Except E A) (maxRetries : Nat) :
    Option (RetryOutcome E A) :=
  retryGo outcomes 1 maxRetries

/-! ## The content-ready race (lib.ts, fetchSingleUrl / Promise.any) -/

/-- A concurrent task outcome: the instant at which the underlying promise
settles, together with fulfillment value or rejection reason. -/
def TaskOutcome (E A : Type) : Type := Nat × Except E A

/-- Earliest fulfilled task of a list, by settle time; on a tie the task
listed first wins (in the single-threaded event loop two promises never
settle in the same microtask, so ties do not arise in practice). -/
def earliest : List (Nat × A) → Option (Nat × A)
  | [] => none
  | x :: xs =>
    match earliest xs with
    | none => some x
    | some y => if y.1 < x.1 then some y else some x

/-- Fulfilled tasks of a list, with their settle times. -/
def fulfilled (tasks : List (TaskOutcome E A)) : List (Nat × A) :=
  tasks.filterMap fun t =>
    match t.2 with
    | .ok a => some (t.1, a)
    | .error _ => none

/-- Rejection reasons of a list of tasks, in input order. -/
def rejections (tasks : List (TaskOutcome E A)) : List E :=
  tasks.filterMap fun t =>
    match t.2 with
    | .ok _ => none
    | .error e => some e

/-- Semantics of `Promise.any` as used at lib.ts line 202: fulfills with
the value of the first input promise to fulfill, regardless of earlier
rejections; rejects only when every input rejects, and then with an
AggregateError carrying all rejection reasons in input order. -/
def promiseAny (tasks : List (TaskOutcome E A)) : Except (List E) (Nat × A) :=
  match earliest (fulfilled tasks) with
  | some w => .ok w
  | none => .error (rejections tasks)

/-- The race run by `fetchSingleUrl` (lib.ts lines 191-202):
`Promise.any([responsePromise, gotoPromise])` over exactly the
response-interception strategy and the navigate-then-poll strategy. -/
def contentReadyRace (respTask gotoTask : TaskOutcome E A) : Except (List E) (Nat × A) :=
  promiseAny [respTask, gotoTask]

/-! ## Bounded concurrency (semaphore.ts, modelled; callers in lib.ts) -/

/-- Phase of one concurrent `fetchSingleUrl` call with respect to the
permit and the page it owns, following lib.ts lines 180-219: the call
first awaits `pageSemaphore.acquire()`, then opens a page, and in the
`finally` block closes the page and calls `pageSemaphore.release()`.
`pageClosed` also covers the fault paths on which no page was opened or
the page is already gone when the finally block runs. -/
inductive Phase where
  | start
  | waiting
  | acquired
  | pageOpen
  | pageClosed
  | released
  deriving DecidableEq

/-- Phases during which the call holds a permit. -/
def Phase.holdsPermit : Phase → Bool
  | .acquired => true
  | .pageOpen => true
  | .pageClosed => true
  | _ => false

/-- Modelled from the spec: `src/semaphore.ts` is imported by lib.ts but
is not part of the repository snapshot. Section 4.1 describes a counting
permit gate of capacity K (default 5) with a FIFO wait queue: `acquire`
takes a permit when one is free and otherwise suspends the caller at the
tail of the queue; `release` hands the permit to the longest-waiting
caller if any, else returns it to the pool. The state couples the
semaphore (free permit count and FIFO queue of task indices) with the
phase of every concurrent fetch call. -/
structure SysState where
  avail : Nat
  queue : List Nat
  tasks : List Phase

/-- Initial state: `N` fetch calls about to run against a fresh semaphore
of capacity `K`. -/
def initState (K N : Nat) : SysState :=
  ⟨K, [], List.replicate N .start⟩

/-- Number of calls currently holding a permit. -/
def outstanding (s : SysState) : Nat :=
  s.tasks.countP fun p => p.holdsPermit

/-- Number of browser pages currently open. -/
def pagesOpen (s : SysState) : Nat :=
  s.tasks.countP fun p => p = .pageOpen

/-- Interleaving steps of the concurrent fetch calls. Acquisition follows
the modelled semaphore (take a free permit or join the FIFO queue);
`openPage` and `closePage` are the page lifetime inside the permit scope
(lib.ts lines 185 and 211); release either hands the permit to the queue
head or returns it to the pool. `releaseHandoff`/`releaseToPool` fire
from `pageClosed` and also directly from `acquired`, covering the fault
path on which `browser.newPage()` itself fails and the finally block
releases without a page ever opening. -/
inductive Step : SysState → SysState → Prop
  | acquireOk (s : SysState) (i : Nat) :
      s.tasks[i]? = some .start →
      0 < s.avail →
      Step s ⟨s.avail - 1, s.queue, s.tasks.set i .acquired⟩
  | acquireWait (s : SysState) (i : Nat) :
      s.tasks[i]? = some .start →
      s.avail = 0 →
      Step s ⟨0, s.queue ++ [i], s.tasks.set i .waiting⟩
  | openPage (s : SysState) (i : Nat) :
      s.tasks[i]? = some .acquired →
      Step s ⟨s.avail, s.queue, s.tasks.set i .pageOpen⟩
  | closePage (s : SysState) (i : Nat) :
      s.tasks[i]? = some .pageOpen →
      Step s ⟨s.avail, s.queue, s.tasks.set i .pageClosed⟩
  | releaseHandoff (s : SysState) (i j : Nat) (rest : List Nat) :
      (s.tasks[i]? = some .pageClosed ∨ s.tasks[i]? = some .acquired) →
      s.queue = j :: rest →
      s.tasks[j]? = some .waiting →
      Step s ⟨s.avail, rest, (s.tasks.set i .released).set j .acquired⟩
  | releaseToPool (s : SysState) (i : Nat) :
      (s.tasks[i]? = some .pageClosed ∨ s.tasks[i]? = some .acquired) →
      s.queue = [] →
      Step s ⟨s.avail + 1, [], s.tasks.set i .released⟩

/-- States reachable from `initState K N` by interleaved steps. -/
inductive Reachable (K N : Nat) : SysState → Prop
  | init : Reachable K N (initState K N)
  | step {s t : SysState} : Reachable K N s → Step s t → Reachable K N t

/-- Replacing position `i` of a phase list changes a `countP` by the
difference between the new and the old element's contribution. -/
lemma countP_set_phase (p : Phase → Bool) (b : Phase) :
    ∀ (l : List Phase) (i : Nat) (a : Phase), l[i]? = some a →
      (l.set i b).countP p + (if p a then 1 else 0)
        = l.countP p + (if p b then 1 else 0) := by
  intro l
  induction l with
  | nil => intro i a h; simp at h
  | cons x xs ih =>
    intro i a h
    cases i with
    | zero =>
      simp only [List.getElem?_cons_zero, Option.some.injEq] at h
      subst h
      simp only [List.set_cons_zero, List.countP_cons]
      omega
    | succ n =>
      simp only [List.getElem?_cons_succ] at h
      simp only [List.set_cons_succ, List.countP_cons]
      have := ih n a h
      omega

/-- Setting a non-counted element to a counted one raises the count by one. -/
lemma countP_set_tf (p : Phase → Bool) (b : Phase) (l : List Phase) (i : Nat) (a : Phase)
    (h : l[i]? = some a) (ha : p a = false) (hb : p b = true) :
    (l.set i b).countP p = l.countP p + 1 := by
  have hmain := countP_set_phase p b l i a h
  rw [ha, hb] at hmain
  simpa using hmain

/-- Setting a counted element to a non-counted one lowers the count by one. -/
lemma countP_set_ft (p : Phase → Bool) (b : Phase) (l : List Phase) (i : Nat) (a : Phase)
    (h : l[i]? = some a) (ha : p a = true) (hb : p b = false) :
    (l.set i b).countP p + 1 = l.countP p := by
  have hmain := countP_set_phase p b l i a h
  rw [ha, hb] at hmain
  simpa using hmain

/-- Setting an element to one with the same counted status keeps the count. -/
lemma countP_set_same (p : Phase → Bool) (b : Phase) (l : List Phase) (i : Nat) (a : Phase)
    (h : l[i]? = some a) (hab : p a = p b) :
    (l.set i b).countP p = l.countP p := by
  have hmain := countP_set_phase p b l i a h
  rw [hab] at hmain
  omega

/-- The semaphore invariant: free permits plus outstanding permits equal
the capacity. It is preserved by every step. -/
lemma inv_step {K : Nat} {s t : SysState} (hstep : Step s t)
    (hinv : s.avail + outstanding s = K) : t.avail + outstanding t = K := by
  cases hstep with
  | acquireOk i hi hpos =>
    have h := countP_set_tf (fun p => p.holdsPermit) .acquired s.tasks i .start hi rfl rfl
    simp only [outstanding] at hinv ⊢
    omega
  | acquireWait i hi hz =>
    have h := countP_set_same (fun p => p.holdsPermit) .waiting s.tasks i .start hi rfl
    simp only [outstanding] at hinv ⊢
    omega
  | openPage i hi =>
    have h := countP_set_same (fun p => p.holdsPermit) .pageOpen s.tasks i .acquired hi rfl
    simp only [outstanding] at hinv ⊢
    omega
  | closePage i hi =>
    have h := countP_set_same (fun p => p.holdsPermit) .pageClosed s.tasks i .pageOpen hi rfl
    simp only [outstanding] at hinv ⊢
    omega
  | releaseHandoff i j rest hi hq hj =>
    have hij : i ≠ j := by
      intro hc
      subst hc
      rcases hi with hi | hi <;> rw [hi] at hj <;> simp at hj
    have hj2 : (s.tasks.set i .released)[j]? = some .waiting := by
      rw [List.getElem?_set_ne hij]; exact hj
    have h2 := countP_set_tf (fun p => p.holdsPermit) .acquired
      (s.tasks.set i .released) j .waiting hj2 rfl rfl
    simp only [outstanding] at hinv ⊢
    rcases hi with hi | hi
    · have h1 := countP_set_ft (fun p => p.holdsPermit) .released s.tasks i .pageClosed hi rfl rfl
      omega
    · have h1 := countP_set_ft (fun p => p.holdsPermit) .released s.tasks i .acquired hi rfl rfl
      omega
  | releaseToPool i hi hq =>
    simp only [outstanding] at hinv ⊢
    rcases hi with hi | hi
    · have h1 := countP_set_ft (fun p => p.holdsPermit) .released s.tasks i .pageClosed hi rfl rfl
      omega
    · have h1 := countP_set_ft (fun p => p.holdsPermit) .released s.tasks i .acquired hi rfl rfl
      omega

/-- A `countP` of a replicated list. -/
lemma countP_replicate_phase (p : Phase → Bool) (n : Nat) (a : Phase) :
    (List.replicate n a).countP p = if p a then n else 0 := by
  induction n with
  | zero => simp
  | succ n ih =>
    simp only [List.replicate, List.countP_cons, ih]
    split <;> omega

/-- Every reachable state satisfies the semaphore invariant. -/
lemma reachable_inv {K N : Nat} {s : SysState} (h : Reachable K N s) :
    s.avail + outstanding s = K := by
  induction h with
  | init =>
    simp [initState, outstanding, countP_replicate_phase, Phase.holdsPermit]
  | step _ hstep ih => exact inv_step hstep ih

/-- Open pages are a subset of the outstanding permit holders: a page is
only open between `pageSemaphore.acquire()` and `pageSemaphore.release()`
in `fetchSingleUrl`. -/
lemma pagesOpen_le_outstanding (s : SysState) : pagesOpen s ≤ outstanding s := by
  apply List.countP_mono_left
  intro a _ h
  have ha : a = Phase.pageOpen := by
    simpa using h
  subst ha
  rfl

/-- C1: at most K permits (default 5) are outstanding at any instant: for
every sequence of N concurrent fetch calls with permit capacity K < N, at
no point during any interleaving of acquire/release steps are more than K
browser pages open simultaneously. -/
theorem C1_at_most_K_pages_open {K N : Nat} {s : SysState}
    (_hKN : K < N) (h : Reachable K N s) : pagesOpen s ≤ K := by
  have h1 := reachable_inv h
  have h2 := pagesOpen_le_outstanding s
  omega

/-- Witness for C1: a concrete interleaving with capacity 1 and two
concurrent calls, in which the first call acquired the permit and opened
its page while the second waits in the FIFO queue. -/
theorem C1_at_most_K_pages_open_witness :
    pagesOpen ⟨0, [1], [Phase.pageOpen, Phase.waiting]⟩ ≤ 1 := by
  have t0 : Reachable 1 2 (initState 1 2) := Reachable.init
  have t1 : Reachable 1 2 ⟨0, [], [Phase.acquired, Phase.start]⟩ :=
    Reachable.step t0 (Step.acquireOk _ 0 rfl (by decide))
  have t2 : Reachable 1 2 ⟨0, [], [Phase.pageOpen, Phase.start]⟩ :=
    Reachable.step t1 (Step.openPage _ 0 rfl)
  have t3 : Reachable 1 2 ⟨0, [1], [Phase.pageOpen, Phase.waiting]⟩ :=
    Reachable.step t2 (Step.acquireWait _ 1 rfl rfl)
  exact C1_at_most_K_pages_open (by decide) t3

/-- C2 counterexample: both strategies fail, the earlier at time 1 with
error 0, the later at time 2 with error 1. The race rejects with the
aggregate list of both errors in strategy order, which is not the
rejection carrying only the last observed error. -/
theorem C2_counterexample :
    contentReadyRace (1, Except.error 0) (2, Except.error 1)
        = (Except.error [0, 1] : Except (List Nat) (Nat × String)) ∧
      (Except.error [0, 1] : Except (List Nat) (Nat × String)) ≠ Except.error [1] := by
  constructor
  · rfl
  · simp

/-- C2 (amended): the race resolves with the first strategy to succeed,
not the first to finish: a rejection never short-circuits a later
success, in either direction; when both strategies succeed the earlier
success wins (the response strategy on a tie); and only when both
strategies have failed does the race fail, in which case it fails with
the aggregate of both errors in strategy order. -/
theorem C2_race_first_success {E A : Type} (tA tB : Nat) (a b : A) (eA eB : E) :
    (contentReadyRace (tA, Except.error eA) (tB, Except.ok b) = Except.ok (tB, b)) ∧
    (contentReadyRace (tA, Except.ok a) (tB, Except.error eB) = Except.ok (tA, a)) ∧
    (tA ≤ tB → contentReadyRace (tA, (Except.ok a : Except E A)) (tB, Except.ok b)
        = Except.ok (tA, a)) ∧
    (tB < tA → contentReadyRace (tA, (Except.ok a : Except E A)) (tB, Except.ok b)
        = Except.ok (tB, b)) ∧
    (contentReadyRace (tA, (Except.error eA : Except E A)) (tB, Except.error eB)
        = Except.error [eA, eB]) := by
  refine ⟨?_, ?_, ?_, ?_, ?_⟩
  · simp [contentReadyRace, promiseAny, fulfilled, earliest]
  · simp [contentReadyRace, promiseAny, fulfilled, earliest]
  · intro h
    simp only [contentReadyRace, promiseAny, fulfilled, earliest, List.filterMap]
    rw [if_neg (by omega)]
  · intro h
    simp only [contentReadyRace, promiseAny, fulfilled, earliest, List.filterMap]
    rw [if_pos h]
  · simp [contentReadyRace, promiseAny, fulfilled, earliest, rejections]

/-- Witness for C2: the amended race semantics at concrete settle times 1
and 2 with concrete values and errors. -/
theorem C2_race_first_success_witness :
    (contentReadyRace (1, Except.error 7) (2, Except.ok "b") = Except.ok (2, "b")) ∧
    (contentReadyRace (1, Except.ok "a") (2, Except.error 8) = Except.ok (1, "a")) ∧
    (1 ≤ 2 → contentReadyRace (1, (Except.ok "a" : Except Nat String)) (2, Except.ok "b")
        = Except.ok (1, "a")) ∧
    (2 < 1 → contentReadyRace (1, (Except.ok "a" : Except Nat String)) (2, Except.ok "b")
        = Except.ok (2, "b")) ∧
    (contentReadyRace (1, (Except.error 7 : Except Nat String)) (2, Except.error 8)
        = Except.error [7, 8]) :=
  C2_race_first_success 1 2 "a" "b" 7 8

/-- When every attempt from `attempt` on fails, the retry loop performs
all remaining attempts and finishes with the error of the last one. -/
lemma retryGo_allFail {E A : Type} (outcomes : Nat → Except E A) (f : Nat → E) :
    ∀ (remaining attempt : Nat), 0 < remaining →
      (∀ k, attempt ≤ k → k < attempt + remaining → outcomes k = .error (f k)) →
      ∃ r, retryGo outcomes attempt remaining = some r ∧
        r.result = .error (f (attempt + remaining - 1)) ∧ r.attemptsMade = remaining := by
  intro remaining
  induction remaining with
  | zero => intro attempt h0 _; exact absurd h0 (by omega)
  | succ rem ih =>
    intro attempt _ hall
    have hatt : outcomes attempt = .error (f attempt) := hall attempt (le_refl _) (by omega)
    by_cases hrem : rem = 0
    · subst hrem
      refine ⟨⟨.error (f attempt), 1, []⟩, ?_, ?_, rfl⟩
      · simp [retryGo, hatt]
      · rfl
    · obtain ⟨r, hr, hres, hatts⟩ :=
        ih (attempt + 1) (by omega) (fun k hk1 hk2 => hall k (by omega) (by omega))
      refine ⟨⟨r.result, r.attemptsMade + 1, waitTime attempt :: r.delays⟩, ?_, ?_, ?_⟩
      · simp [retryGo, hatt, hrem, hr]
      · show r.result = Except.error (f (attempt + (rem + 1) - 1))
        rw [hres]
        congr 2
        omega
      · show r.attemptsMade + 1 = rem + 1
        omega

/-- C4: the retry policy runs up to `maxRetries` attempts (default 3):
the failure of every attempt except the final one leads to a retry, the
final attempt's failure propagates to the caller, and a fetch that fails
twice then succeeds on the third attempt returns the successful result
after performing exactly the two backoff delays 1000 ms and 2000 ms. -/
theorem C4_retry_policy {E A : Type} (outcomes outcomesF : Nat → Except E A)
    (e1 e2 : E) (a : A) (f : Nat → E) (m : Nat)
    (h1 : outcomes 1 = .error e1) (h2 : outcomes 2 = .error e2) (h3 : outcomes 3 = .ok a)
    (hm : 0 < m) (hf : ∀ k, 1 ≤ k → k ≤ m → outcomesF k = .error (f k)) :
    fetchSingleUrlWithRetry outcomes 3 = some ⟨.ok a, 3, [1000, 2000]⟩ ∧
      maxRetriesDefault = 3 ∧
      ∃ r, fetchSingleUrlWithRetry outcomesF m = some r ∧
        r.result = .error (f m) ∧ r.attemptsMade = m := by
  refine ⟨?_, rfl, ?_⟩
  · show retryGo outcomes 1 3 = _
    norm_num [retryGo, h1, h2, h3, waitTime]
  · obtain ⟨r, hr, hres, hatts⟩ :=
      retryGo_allFail outcomesF f m 1 hm (fun k hk1 hk2 => hf k hk1 (by omega))
    refine ⟨r, hr, ?_, hatts⟩
    rw [hres]
    congr 2
    omega

/-- Witness for C4: attempts numbered by their error fail until attempt
3 succeeds, giving the content after delays 1000 and 2000; an
always-failing fetch exhausts all 3 attempts and ends with the error of
attempt 3. -/
theorem C4_retry_policy_witness :
    fetchSingleUrlWithRetry (fun k => if k = 3 then (.ok "c" : Except Nat String) else .error k) 3
        = some ⟨.ok "c", 3, [1000, 2000]⟩ ∧
      maxRetriesDefault = 3 ∧
      ∃ r, fetchSingleUrlWithRetry (fun k => (.error k : Except Nat String)) 3 = some r ∧
        r.result = .error 3 ∧ r.attemptsMade = 3 :=
  C4_retry_policy _ _ 1 2 "c" (fun k => k) 3 (by norm_num) (by norm_num) (by norm_num)
    (by norm_num) (fun k _ _ => rfl)

/-- C5: for every attempt number n at least 1, the backoff delay before
the next attempt equals min(1000 * 2 ^ (n - 1), 5000) milliseconds:
1000 ms after attempt 1, 2000 ms after attempt 2, and never more than
5000 ms regardless of attempt count. -/
theorem C5_backoff (n : Nat) (_hn : 1 ≤ n) :
    waitTime n = min (1000 * 2 ^ (n - 1)) 5000 ∧
      waitTime 1 = 1000 ∧ waitTime 2 = 2000 ∧ waitTime n ≤ 5000 := by
  refine ⟨rfl, by norm_num [waitTime], by norm_num [waitTime], ?_⟩
  exact min_le_right _ _

/-- Witness for C5: the backoff after attempt 7 is capped at 5000 ms. -/
theorem C5_backoff_witness :
    waitTime 7 = min (1000 * 2 ^ (7 - 1)) 5000 ∧
      waitTime 1 = 1000 ∧ waitTime 2 = 2000 ∧ waitTime 7 ≤ 5000 :=
  C5_backoff 7 (by norm_num)

/-! ## Single fetch attempt and raw fetch (lib.ts) -/

/-- Collaborator outcomes a single rendered fetch attempt can encounter:
`browser.newPage()` and `blocker.enableBlockingInPage` may throw, the
Promise.any race may resolve or reject, and the page may already be
closed by the time the finally block runs. -/
structure AttemptOracle (E A : Type) where
  newPage : Except E Unit
  enableBlocking : Except E Unit
  race : Except E A
  pageClosedBeforeFinally : Bool

/-- Resource bookkeeping of one attempt: its outcome, how many times the
semaphore was acquired and released, how many pages were opened, how many
`page.close()` calls were issued, and whether every opened page is closed
when the attempt returns. -/
structure AttemptTrace (E A : Type) where
  result : Except E A
  acquires : Nat
  releases : Nat
  pageOpens : Nat
  closeCalls : Nat
  pageClosedAtEnd : Bool

/-- The single rendered fetch attempt `fetchSingleUrl` (lib.ts lines
173-220): acquire the semaphore; in a try block open a page, enable
blocking and await the race; in the finally block close the page if one
was opened and is not already closed, then release the semaphore. Errors
thrown by `page.close()` are caught and logged in the source (lib.ts
lines 209-215); closing is modelled as taking effect. When
`browser.newPage()` itself throws, no page exists and the finally block
only releases. -/
def fetchSingleUrl {E A : Type} (o : AttemptOracle E A) : AttemptTrace E A :=
  match o.newPage with
  | .error e => ⟨.error e, 1, 1, 0, 0, true⟩
  | .ok _ =>
    let body : Except E A :=
      match o.enableBlocking with
      | .error e => .error e
      | .ok _ => o.race
    ⟨body, 1, 1, 1, if o.pageClosedBeforeFinally then 0 else 1, true⟩

/-- Raw upstream response captured by `fetchRawResponse` (lib.ts lines
80-84 and 283-290): body bytes, optional content type, HTTP status. -/
structure RawResponse (B : Type) where
  body : B
  contentType : Option String
  status : Nat
  deriving DecidableEq

/-- Collaborator outcomes of a raw fetch attempt: `page.goto` may throw,
return null (no upstream response), or return a response. -/
structure RawOracle (B : Type) where
  newPage : Except String Unit
  enableBlocking : Except String Unit
  goto : Except String (Option (RawResponse B))
  pageClosedBeforeFinally : Bool

/-- Resource bookkeeping of one raw fetch attempt. -/
structure RawTrace (B : Type) where
  result : Except String (RawResponse B)
  acquires : Nat
  releases : Nat
  pageOpens : Nat
  closeCalls : Nat
  pageClosedAtEnd : Bool

/-- The raw fetch `fetchRawResponse` (lib.ts lines 264-304): acquire the
semaphore; open a page, enable blocking, navigate; when navigation
returns null throw `No response received for <url>`; in the finally
block close the page if open and release the semaphore. -/
def fetchRawResponse {B : Type} (url : String) (o : RawOracle B) : RawTrace B :=
  match o.newPage with
  | .error e => ⟨.error e, 1, 1, 0, 0, true⟩
  | .ok _ =>
    let body : Except String (RawResponse B) :=
      match o.enableBlocking with
      | .error e => .error e
      | .ok _ =>
        match o.goto with
        | .error e => .error e
        | .ok none => .error ("No response received for " ++ url)
        | .ok (some r) => .ok r
    ⟨body, 1, 1, 1, if o.pageClosedBeforeFinally then 0 else 1, true⟩

/-- C3: on every exit path of a single fetch attempt, whether the race
succeeds, times out, an unexpected fault occurs while opening or
preparing the page, or the page has already closed unexpectedly by the
time the finally block runs (the PageClosedError path guarded by
`page.isClosed()` at lib.ts line 210), the permit is acquired and
released exactly once and at most one `page.close()` call is issued:
every opened page is closed when the attempt returns, a page that was
opened and is still open at the finally block receives exactly one
close call, and a page that already closed receives none (no
double-close). The same holds on the raw path. -/
theorem C3_cleanup_every_path {E A B : Type} (o : AttemptOracle E A)
    (url : String) (ro : RawOracle B) :
    ((fetchSingleUrl o).acquires = 1 ∧ (fetchSingleUrl o).releases = 1 ∧
      (fetchSingleUrl o).closeCalls ≤ 1 ∧ (fetchSingleUrl o).pageClosedAtEnd = true ∧
      ((fetchSingleUrl o).pageOpens = 1 → o.pageClosedBeforeFinally = false →
        (fetchSingleUrl o).closeCalls = 1) ∧
      (o.pageClosedBeforeFinally = true → (fetchSingleUrl o).closeCalls = 0)) ∧
    ((fetchRawResponse url ro).acquires = 1 ∧ (fetchRawResponse url ro).releases = 1 ∧
      (fetchRawResponse url ro).closeCalls ≤ 1 ∧
      (fetchRawResponse url ro).pageClosedAtEnd = true ∧
      ((fetchRawResponse url ro).pageOpens = 1 → ro.pageClosedBeforeFinally = false →
        (fetchRawResponse url ro).closeCalls = 1) ∧
      (ro.pageClosedBeforeFinally = true → (fetchRawResponse url ro).closeCalls = 0)) := by
  obtain ⟨np, eb, race, pc⟩ := o
  obtain ⟨rnp, reb, rgoto, rpc⟩ := ro
  constructor
  · cases np <;> cases pc <;> simp [fetchSingleUrl]
  · cases rnp <;> cases rpc <;> simp [fetchRawResponse]

/-- Witness for C3: a rendered attempt whose race fails after the page
closed unexpectedly (release happens once, no close call is issued on
the already-closed page) and a raw attempt whose navigation throws with
the page still open (release once, exactly one close call). -/
theorem C3_cleanup_every_path_witness :
    ((fetchSingleUrl ⟨.ok (), .ok (), (.error "page closed" : Except String String), true⟩).acquires = 1 ∧
      (fetchSingleUrl ⟨.ok (), .ok (), (.error "page closed" : Except String String), true⟩).releases = 1 ∧
      (fetchSingleUrl ⟨.ok (), .ok (), (.error "page closed" : Except String String), true⟩).closeCalls ≤ 1 ∧
      (fetchSingleUrl ⟨.ok (), .ok (), (.error "page closed" : Except String String), true⟩).pageClosedAtEnd = true ∧
      ((fetchSingleUrl ⟨.ok (), .ok (), (.error "page closed" : Except String String), true⟩).pageOpens = 1 →
        ((⟨.ok (), .ok (), .error "page closed", true⟩ : AttemptOracle String String)).pageClosedBeforeFinally = false →
        (fetchSingleUrl ⟨.ok (), .ok (), (.error "page closed" : Except String String), true⟩).closeCalls = 1) ∧
      (((⟨.ok (), .ok (), .error "page closed", true⟩ : AttemptOracle String String)).pageClosedBeforeFinally = true →
        (fetchSingleUrl ⟨.ok (), .ok (), (.error "page closed" : Except String String), true⟩).closeCalls = 0)) ∧
    ((fetchRawResponse "http://x" (⟨.ok (), .ok (), .error "net down", false⟩ : RawOracle Nat)).acquires = 1 ∧
      (fetchRawResponse "http://x" (⟨.ok (), .ok (), .error "net down", false⟩ : RawOracle Nat)).releases = 1 ∧
      (fetchRawResponse "http://x" (⟨.ok (), .ok (), .error "net down", false⟩ : RawOracle Nat)).closeCalls ≤ 1 ∧
      (fetchRawResponse "http://x" (⟨.ok (), .ok (), .error "net down", false⟩ : RawOracle Nat)).pageClosedAtEnd = true ∧
      ((fetchRawResponse "http://x" (⟨.ok (), .ok (), .error "net down", false⟩ : RawOracle Nat)).pageOpens = 1 →
        ((⟨.ok (), .ok (), .error "net down", false⟩ : RawOracle Nat)).pageClosedBeforeFinally = false →
        (fetchRawResponse "http://x" (⟨.ok (), .ok (), .error "net down", false⟩ : RawOracle Nat)).closeCalls = 1) ∧
      (((⟨.ok (), .ok (), .error "net down", false⟩ : RawOracle Nat)).pageClosedBeforeFinally = true →
        (fetchRawResponse "http://x" (⟨.ok (), .ok (), .error "net down", false⟩ : RawOracle Nat)).closeCalls = 0)) :=
  C3_cleanup_every_path ⟨.ok (), .ok (), .error "page closed", true⟩ "http://x"
    ⟨.ok (), .ok (), .error "net down", false⟩

/-- Url query parameter shape: a single string or an array of strings. -/
inductive UrlParam where
  | one (u : String)
  | many (us : List String)
  deriving DecidableEq

/-- The raw entry point `getRawResponse` (lib.ts lines 327-338): a url
array is rejected; otherwise exactly one `fetchRawResponse` attempt is
made — the retry wrapper `fetchSingleUrlWithRetry` is not applied on the
raw path. `attempts k` is the collaborator behaviour the k-th attempt
would observe; the code consults only attempt 1. The second component
counts the fetch attempts performed. -/
def getRawResponse {B : Type} (url : UrlParam) (attempts : Nat → RawOracle B) :
    Except String (RawResponse B) × Nat :=
  match url with
  | .many _ => (.error "Raw response only supports a single URL", 0)
  | .one u => ((fetchRawResponse u (attempts 1)).result, 1)

/-- C6 counterexample: the upstream yields no response on attempt 1 while
a good response would be available on attempt 2. The raw path performs
exactly one attempt and propagates the no-response error; running the
retry policy over those same attempt outcomes would have returned the
attempt-2 response after one backoff. The raw fetch is therefore not
retried by the retry policy. -/
theorem C6_counterexample :
    getRawResponse (.one "http://x") (fun k =>
        if k = 1 then (⟨.ok (), .ok (), .ok none, false⟩ : RawOracle Nat)
        else ⟨.ok (), .ok (), .ok (some ⟨5, some "text/html", 200⟩), false⟩)
      = (.error "No response received for http://x", 1) ∧
    fetchSingleUrlWithRetry (fun k =>
        (fetchRawResponse "http://x"
          (if k = 1 then (⟨.ok (), .ok (), .ok none, false⟩ : RawOracle Nat)
           else ⟨.ok (), .ok (), .ok (some ⟨5, some "text/html", 200⟩), false⟩)).result) 3
      = some ⟨.ok ⟨5, some "text/html", 200⟩, 2, [1000]⟩ := by
  constructor
  · rfl
  · rfl

/-- C6 (amended): when a raw-mode fetch receives no upstream response,
the error `No response received for <url>` is raised and propagates
directly to the caller after exactly one attempt: the raw path is not
wrapped in the retry policy. -/
theorem C6_raw_no_response {B : Type} (u : String) (attempts : Nat → RawOracle B)
    (h1 : (attempts 1).newPage = .ok ()) (h2 : (attempts 1).enableBlocking = .ok ())
    (h3 : (attempts 1).goto = .ok none) :
    getRawResponse (.one u) attempts
      = (.error ("No response received for " ++ u), 1) := by
  simp [getRawResponse, fetchRawResponse, h1, h2, h3]

/-- Witness for C6: a concrete oracle with no upstream response. -/
theorem C6_raw_no_response_witness :
    getRawResponse (.one "http://x")
        (fun _ => (⟨.ok (), .ok (), .ok none, false⟩ : RawOracle Nat))
      = (.error ("No response received for " ++ "http://x"), 1) :=
  C6_raw_no_response "http://x" (fun _ => ⟨.ok (), .ok (), .ok none, false⟩) rfl rfl rfl

/-! ## Response cache (cache.ts, modelled) and HTTP handler (index.ts) -/

/-- Modelled from the spec: `src/cache.ts` is imported by index.ts but is
not part of the repository snapshot. Section 3 CacheEntry: key, value and
insertion timestamp. -/
structure CacheEntry (V : Type) where
  key : String
  value : V
  insertedAt : Nat
  deriving DecidableEq

/-- Modelled from the spec: the response cache of `src/cache.ts` (section
4.4, README: lru-cache with 5-minute TTL). Entries are kept in
most-recently-used-first order; entries expire `ttl` after insertion
independent of access; capacity-bounded with LRU eviction. -/
structure Cache (V : Type) where
  capacity : Nat
  ttl : Nat
  entries : List (CacheEntry V)
  deriving DecidableEq

/-- Modelled from the spec: cache `get` (section 4.4). A lookup that finds
a live entry returns its value and marks it most-recently-used; an
expired entry is treated as absent and logically deleted; a miss leaves
the cache unchanged. Returns the value found and the updated cache. -/
def Cache.lookup {V : Type} (c : Cache V) (key : String) (now : Nat) :
    Option V × Cache V :=
  match c.entries.find? (fun e => e.key == key) with
  | none => (none, c)
  | some e =>
    if c.ttl ≤ now - e.insertedAt then
      (none, ⟨c.capacity, c.ttl, c.entries.filter (fun x => !(x.key == key))⟩)
    else
      (some e.value, ⟨c.capacity, c.ttl, e :: c.entries.filter (fun x => !(x.key == key))⟩)

/-- Modelled from the spec: cache `set` (section 4.4): always installs a
fresh entry with a fresh timestamp at the most-recently-used position,
evicting least-recently-used entries beyond capacity. -/
def Cache.store {V : Type} (c : Cache V) (key : String) (v : V) (now : Nat) : Cache V :=
  ⟨c.capacity, c.ttl,
    (⟨key, v, now⟩ :: c.entries.filter (fun x => !(x.key == key))).take c.capacity⟩

/-- ASCII lowercasing, the behaviour of `value.toLowerCase()` on the
basic latin range (query parameter values compared against "false" and
"0"). -/
def lowerString (s : String) : String :=
  ⟨s.data.map Char.toLower⟩

/-- Lexicographic comparison of character lists, for the canonical
ordering of option keys. -/
def charListLe : List Char → List Char → Bool
  | [], _ => true
  | _ :: _, [] => false
  | c :: cs, d :: ds =>
    if c = d then charListLe cs ds else decide (c < d)

/-- Canonical ordering of option keys. -/
def keyLe (a b : String) : Bool :=
  charListLe a.data b.data

/-- Insertion into an option list sorted by key. -/
def insertByKey (p : String × String) :
    List (String × String) → List (String × String)
  | [] => [p]
  | q :: qs => if keyLe p.1 q.1 then p :: q :: qs else q :: insertByKey p qs

/-- Sorting of option pairs by key. -/
def sortByKey : List (String × String) → List (String × String)
  | [] => []
  | p :: ps => insertByKey p (sortByKey ps)

/-- Serialization of the url parameter into the fingerprint. -/
def serializeUrl : UrlParam → String
  | .one u => u
  | .many us => String.intercalate "," us

/-- Modelled from the spec: the cache fingerprint (section 3 CacheKey) is
derived deterministically from the URL and the full set of navigation
options including the ad-block flag, with option keys sorted canonically
before serialization. The selector is not an input: index.ts lines 38-48
destructure `selector` out of the query and build `cacheOptions` from the
remaining options plus the adblock flag only. -/
def cacheKey (url : UrlParam) (options : List (String × String)) : String :=
  serializeUrl url ++ "|" ++
    String.intercalate "&" ((sortByKey options).map (fun p => p.1 ++ "=" ++ p.2))

/-- Query parameters of one request to `GET /` as destructured at
index.ts lines 38-45: the url (a string or an array), the selector, the
raw and adblock flags, and all remaining options (timeout, waitUntil,
and so on). Repeated scalar parameters are modelled by their first
value, as `shouldReturnRaw`/`shouldEnableAdblock` do. -/
structure Query where
  url : Option UrlParam
  selector : Option String
  raw : Option String
  adblock : Option String
  options : List (String × String)

/-- `shouldReturnRaw` (index.ts lines 8-19): false when the parameter is
absent, otherwise true unless the value lowercases to false or 0. -/
def shouldReturnRaw (rawParam : Option String) : Bool :=
  match rawParam with
  | none => false
  | some v => (lowerString v != "false") && (lowerString v != "0")

/-- `shouldEnableAdblock` (index.ts lines 21-34): true when the parameter
is absent, otherwise true unless the value lowercases to false or 0. -/
def shouldEnableAdblock (adblockParam : Option String) : Bool :=
  match adblockParam with
  | none => true
  | some v => (lowerString v != "false") && (lowerString v != "0")

/-- JS falsiness of the url value in `if (!url)` (index.ts line 50): the
empty string is falsy; an array, even empty, is truthy. -/
def urlParamFalsy : UrlParam → Bool
  | .one u => u == ""
  | .many _ => false

/-- JS falsiness of the selector in `else if (!selector)` (index.ts line
77): absent or the empty string. -/
def selectorMissing : Option String → Bool
  | none => true
  | some s => s == ""

/-- Body of an HTTP response produced by the handler: a JSON error
envelope, a JSON success envelope, or raw upstream bytes with forwarded
content type and echoed upstream status. -/
inductive Body where
  | fail (error : String)
  | ok (fromCache : Bool) (data : List String)
  | raw (status : Nat) (contentType : Option String) (bytes : String)
  deriving DecidableEq

/-- An HTTP response: status code and body. -/
structure HttpResponse where
  status : Nat
  body : Body
  deriving DecidableEq

/-- Result of one handler run: the response, the response cache after the
request, and how many rendered/raw fetches were performed. -/
structure HandleResult where
  response : HttpResponse
  cache : Cache (List String)
  renderCalls : Nat
  rawCalls : Nat

/-- The request handler `app.get("/")` (index.ts lines 36-128). `render`
abstracts `getPageContent` (url, selector, adblock flag, remaining
options); `rawFetch` abstracts `getRawResponse` on a single url. The
handler validates in source order (missing url; raw with selector; raw
with a url array; missing selector in non-raw mode), then consults the
response cache (index.ts line 84, unconditionally, also on the raw
path), then either serves the cached data, renders and stores, or
performs the raw fetch without touching the cache further; thrown errors
map to status 500 with a JSON error envelope. -/
def handle (render : UrlParam → Option String → Bool → List (String × String) →
      Except String (List String))
    (rawFetch : String → Bool → List (String × String) →
      Except String (RawResponse String))
    (q : Query) (cache : Cache (List String)) (now : Nat) : HandleResult :=
  let returnRaw := shouldReturnRaw q.raw
  let enableAdblock := shouldEnableAdblock q.adblock
  let cacheOptions : List (String × String) :=
    ("adblock", if enableAdblock then "true" else "false") :: q.options
  match q.url with
  | none => ⟨⟨200, .fail "URL parameter is required"⟩, cache, 0, 0⟩
  | some url =>
    if urlParamFalsy url then
      ⟨⟨200, .fail "URL parameter is required"⟩, cache, 0, 0⟩
    else if returnRaw && q.selector.isSome then
      ⟨⟨400, .fail "raw parameter cannot be used with selector"⟩, cache, 0, 0⟩
    else if returnRaw && (match url with | .many _ => true | .one _ => false) then
      ⟨⟨400, .fail "raw parameter only supports a single URL"⟩, cache, 0, 0⟩
    else if !returnRaw && selectorMissing q.selector then
      ⟨⟨200, .fail "selector parameter is required"⟩, cache, 0, 0⟩
    else
      let looked := Cache.lookup cache (cacheKey url cacheOptions) now
      if !returnRaw then
        match looked.1 with
        | some data => ⟨⟨200, .ok true data⟩, looked.2, 0, 0⟩
        | none =>
          match render url q.selector enableAdblock q.options with
          | .error msg => ⟨⟨500, .fail msg⟩, looked.2, 1, 0⟩
          | .ok data =>
            ⟨⟨200, .ok false data⟩,
              (looked.2).store (cacheKey url cacheOptions) data now, 1, 0⟩
      else
        match url with
        | .many _ => ⟨⟨500, .fail "Raw response only supports a single URL"⟩, looked.2, 0, 0⟩
        | .one u =>
          match rawFetch u enableAdblock q.options with
          | .error msg => ⟨⟨500, .fail msg⟩, looked.2, 0, 1⟩
          | .ok r => ⟨⟨r.status, .raw r.status r.contentType r.body⟩, looked.2, 0, 1⟩

/-- C7 counterexample: a non-raw request for https://example.com with no
selector, against a renderer that would succeed with content: the
endpoint answers with a success:false envelope naming the selector
parameter and performs no fetch, instead of succeeding once navigation
settles with the available content. -/
theorem C7_counterexample :
    (handle (fun _ _ _ _ => .ok ["<html>"]) (fun _ _ _ => .error "no")
        ⟨some (.one "https://example.com"), none, none, none, []⟩
        ⟨100, 300000, []⟩ 0).response
      = ⟨200, .fail "selector parameter is required"⟩ ∧
    (handle (fun _ _ _ _ => .ok ["<html>"]) (fun _ _ _ => .error "no")
        ⟨some (.one "https://example.com"), none, none, none, []⟩
        ⟨100, 300000, []⟩ 0).renderCalls = 0 ∧
    (handle (fun _ _ _ _ => .ok ["<html>"]) (fun _ _ _ => .error "no")
        ⟨some (.one "https://example.com"), none, none, none, []⟩
        ⟨100, 300000, []⟩ 0).response.body ≠ .ok false ["<html>"] := by
  refine ⟨rfl, rfl, by decide⟩

/-- C7 (amended): for every non-raw request in which no selector is
supplied (absent or the empty string), the endpoint rejects the request
with status 200 and a success:false envelope naming the selector
parameter, leaves the cache untouched and performs no fetch: the
no-ready-check path is not reachable through the endpoint. -/
theorem C7_no_selector_rejected
    (render : UrlParam → Option String → Bool → List (String × String) →
      Except String (List String))
    (rawFetch : String → Bool → List (String × String) →
      Except String (RawResponse String))
    (cache : Cache (List String)) (now : Nat) (u : UrlParam)
    (sel rawp adb : Option String) (opts : List (String × String))
    (hu : urlParamFalsy u = false)
    (hraw : shouldReturnRaw rawp = false)
    (hsel : selectorMissing sel = true) :
    handle render rawFetch ⟨some u, sel, rawp, adb, opts⟩ cache now
      = ⟨⟨200, .fail "selector parameter is required"⟩, cache, 0, 0⟩ := by
  simp [handle, hu, hraw, hsel]

/-- Witness for C7: a concrete selector-less non-raw request. -/
theorem C7_no_selector_rejected_witness :
    handle (fun _ _ _ _ => .ok []) (fun _ _ _ => .error "e")
        ⟨some (.one "https://example.com"), none, none, none, []⟩
        ⟨100, 300000, []⟩ 0
      = ⟨⟨200, .fail "selector parameter is required"⟩, ⟨100, 300000, []⟩, 0, 0⟩ :=
  C7_no_selector_rejected (fun _ _ _ _ => .ok []) (fun _ _ _ => .error "e")
    ⟨100, 300000, []⟩ 0 (.one "https://example.com") none none none [] rfl rfl rfl

/-- C8: the failure status mapping of the endpoint: missing url gives
200 with success:false; raw combined with a selector gives 400; raw
combined with a url array gives 400; a missing selector in non-raw mode
gives 200 with success:false; a runtime failure of the rendered path or
of the raw path gives 500 with success:false. -/
theorem C8_status_mapping
    (render : UrlParam → Option String → Bool → List (String × String) →
      Except String (List String))
    (rawFetch : String → Bool → List (String × String) →
      Except String (RawResponse String))
    (cache : Cache (List String)) (now : Nat)
    (sel adb rawT rawF : Option String) (opts : List (String × String))
    (u : UrlParam) (s u1 : String) (us : List String) (msg msg2 : String)
    (hT : shouldReturnRaw rawT = true) (hF : shouldReturnRaw rawF = false)
    (hu : urlParamFalsy u = false) (hs : (s == "") = false)
    (h1 : (u1 == "") = false)
    (hmiss : (Cache.lookup cache (cacheKey u (("adblock",
        if shouldEnableAdblock adb then "true" else "false") :: opts)) now).1 = none)
    (hrender : render u (some s) (shouldEnableAdblock adb) opts = .error msg)
    (hrawF : rawFetch u1 (shouldEnableAdblock adb) opts = .error msg2) :
    (handle render rawFetch ⟨none, sel, rawT, adb, opts⟩ cache now).response
        = ⟨200, .fail "URL parameter is required"⟩ ∧
    (handle render rawFetch ⟨some u, some s, rawT, adb, opts⟩ cache now).response
        = ⟨400, .fail "raw parameter cannot be used with selector"⟩ ∧
    (handle render rawFetch ⟨some (.many us), none, rawT, adb, opts⟩ cache now).response
        = ⟨400, .fail "raw parameter only supports a single URL"⟩ ∧
    (handle render rawFetch ⟨some u, none, rawF, adb, opts⟩ cache now).response
        = ⟨200, .fail "selector parameter is required"⟩ ∧
    (handle render rawFetch ⟨some u, some s, rawF, adb, opts⟩ cache now).response
        = ⟨500, .fail msg⟩ ∧
    (handle render rawFetch ⟨some (.one u1), none, rawT, adb, opts⟩ cache now).response
        = ⟨500, .fail msg2⟩ := by
  refine ⟨?_, ?_, ?_, ?_, ?_, ?_⟩
  · simp [handle]
  · simp [handle, hT, hu]
  · simp [handle, hT, urlParamFalsy]
  · simp [handle, hF, hu, selectorMissing]
  · simp [handle, hF, hu, selectorMissing, hs, hmiss, hrender]
  · simp [handle, hT, urlParamFalsy, h1, hrawF]

/-- Witness for C8: the six scenarios at concrete parameters against an
always-failing renderer and raw fetcher and an empty cache. -/
theorem C8_status_mapping_witness :
    (handle (fun _ _ _ _ => (.error "boom" : Except String (List String)))
        (fun _ _ _ => (.error "net down" : Except String (RawResponse String)))
        ⟨none, none, some "1", none, []⟩ ⟨100, 300000, []⟩ 0).response
        = ⟨200, .fail "URL parameter is required"⟩ ∧
    (handle (fun _ _ _ _ => .error "boom") (fun _ _ _ => .error "net down")
        ⟨some (.one "http://a"), some ".main", some "1", none, []⟩
        ⟨100, 300000, []⟩ 0).response
        = ⟨400, .fail "raw parameter cannot be used with selector"⟩ ∧
    (handle (fun _ _ _ _ => .error "boom") (fun _ _ _ => .error "net down")
        ⟨some (.many ["http://a", "http://b"]), none, some "1", none, []⟩
        ⟨100, 300000, []⟩ 0).response
        = ⟨400, .fail "raw parameter only supports a single URL"⟩ ∧
    (handle (fun _ _ _ _ => .error "boom") (fun _ _ _ => .error "net down")
        ⟨some (.one "http://a"), none, none, none, []⟩ ⟨100, 300000, []⟩ 0).response
        = ⟨200, .fail "selector parameter is required"⟩ ∧
    (handle (fun _ _ _ _ => .error "boom") (fun _ _ _ => .error "net down")
        ⟨some (.one "http://a"), some ".main", none, none, []⟩
        ⟨100, 300000, []⟩ 0).response
        = ⟨500, .fail "boom"⟩ ∧
    (handle (fun _ _ _ _ => .error "boom") (fun _ _ _ => .error "net down")
        ⟨some (.one "http://b"), none, some "1", none, []⟩ ⟨100, 300000, []⟩ 0).response
        = ⟨500, .fail "net down"⟩ :=
  C8_status_mapping (fun _ _ _ _ => .error "boom") (fun _ _ _ => .error "net down")
    ⟨100, 300000, []⟩ 0 none none (some "1") none [] (.one "http://a") ".main" "http://b"
    ["http://a", "http://b"] "boom" "net down" (by decide) rfl rfl rfl rfl rfl rfl rfl

/-- C9: the cache key is independent of the selector: a rendered request
with selector s1 renders and stores its content; a second rendered
request with the same url, options and adblock flag but a different
selector s2 hits the same cache entry and is served the content rendered
for s1, with fromCache true and no fetch performed. -/
theorem C9_cache_key_ignores_selector
    (render : UrlParam → Option String → Bool → List (String × String) →
      Except String (List String))
    (rawFetch : String → Bool → List (String × String) →
      Except String (RawResponse String))
    (now : Nat) (u : UrlParam) (adb : Option String)
    (opts : List (String × String)) (s1 s2 : String) (d1 : List String)
    (hu : urlParamFalsy u = false)
    (hs1 : (s1 == "") = false) (hs2 : (s2 == "") = false)
    (hrender : render u (some s1) (shouldEnableAdblock adb) opts = .ok d1) :
    (handle render rawFetch ⟨some u, some s1, none, adb, opts⟩
        ⟨100, 300000, []⟩ now).response = ⟨200, .ok false d1⟩ ∧
    (handle render rawFetch ⟨some u, some s2, none, adb, opts⟩
        (handle render rawFetch ⟨some u, some s1, none, adb, opts⟩
          ⟨100, 300000, []⟩ now).cache now).response = ⟨200, .ok true d1⟩ ∧
    (handle render rawFetch ⟨some u, some s2, none, adb, opts⟩
        (handle render rawFetch ⟨some u, some s1, none, adb, opts⟩
          ⟨100, 300000, []⟩ now).cache now).renderCalls = 0 := by
  have h1 : handle render rawFetch ⟨some u, some s1, none, adb, opts⟩
      ⟨100, 300000, []⟩ now
      = ⟨⟨200, .ok false d1⟩,
          ⟨100, 300000, [⟨cacheKey u (("adblock",
            if shouldEnableAdblock adb then "true" else "false") :: opts), d1, now⟩]⟩,
          1, 0⟩ := by
    simp [handle, shouldReturnRaw, hu, selectorMissing, hs1, hrender, Cache.lookup,
      Cache.store, List.take]
  rw [h1]
  have h2 : handle render rawFetch ⟨some u, some s2, none, adb, opts⟩
      ⟨100, 300000, [⟨cacheKey u (("adblock",
        if shouldEnableAdblock adb then "true" else "false") :: opts), d1, now⟩]⟩ now
      = ⟨⟨200, .ok true d1⟩,
          ⟨100, 300000, [⟨cacheKey u (("adblock",
            if shouldEnableAdblock adb then "true" else "false") :: opts), d1, now⟩]⟩,
          0, 0⟩ := by
    simp [handle, shouldReturnRaw, hu, selectorMissing, hs2, Cache.lookup,
      List.find?, Nat.sub_self]
  rw [h2]
  exact ⟨rfl, rfl, rfl⟩

/-- Witness for C9: a concrete pair of requests differing only in the
selector; the second is served the first's rendered content from the
cache. -/
theorem C9_cache_key_ignores_selector_witness :
    (handle (fun _ sel _ _ => if sel == some ".a" then .ok ["<div class=a>"]
          else .error "not found")
        (fun _ _ _ => .error "e")
        ⟨some (.one "http://x"), some ".a", none, none, []⟩
        ⟨100, 300000, []⟩ 0).response = ⟨200, .ok false ["<div class=a>"]⟩ ∧
    (handle (fun _ sel _ _ => if sel == some ".a" then .ok ["<div class=a>"]
          else .error "not found")
        (fun _ _ _ => .error "e")
        ⟨some (.one "http://x"), some ".b", none, none, []⟩
        (handle (fun _ sel _ _ => if sel == some ".a" then .ok ["<div class=a>"]
            else .error "not found")
          (fun _ _ _ => .error "e")
          ⟨some (.one "http://x"), some ".a", none, none, []⟩
          ⟨100, 300000, []⟩ 0).cache 0).response = ⟨200, .ok true ["<div class=a>"]⟩ ∧
    (handle (fun _ sel _ _ => if sel == some ".a" then .ok ["<div class=a>"]
          else .error "not found")
        (fun _ _ _ => .error "e")
        ⟨some (.one "http://x"), some ".b", none, none, []⟩
        (handle (fun _ sel _ _ => if sel == some ".a" then .ok ["<div class=a>"]
            else .error "not found")
          (fun _ _ _ => .error "e")
          ⟨some (.one "http://x"), some ".a", none, none, []⟩
          ⟨100, 300000, []⟩ 0).cache 0).renderCalls = 0 :=
  C9_cache_key_ignores_selector
    (fun _ sel _ _ => if sel == some ".a" then .ok ["<div class=a>"] else .error "not found")
    (fun _ _ _ => .error "e") 0 (.one "http://x") none [] ".a" ".b" ["<div class=a>"]
    rfl rfl rfl rfl

/-- C10 counterexample: a raw request whose cache fingerprint matches an
existing entry: the unconditional cache lookup of index.ts line 84 moves
that entry to the most-recently-used position, so the cache after the
raw request differs from the cache before it, even though the response
is served fresh from upstream. -/
theorem C10_counterexample :
    (handle (fun _ _ _ _ => .error "unused")
        (fun _ _ _ => .ok ⟨"bytes", some "text/html", 200⟩)
        ⟨some (.one "http://x"), none, some "1", none, []⟩
        ⟨100, 300000, [⟨"zzz|", ["o"], 0⟩, ⟨"http://x|adblock=true", ["y"], 0⟩]⟩ 0).cache
      = ⟨100, 300000, [⟨"http://x|adblock=true", ["y"], 0⟩, ⟨"zzz|", ["o"], 0⟩]⟩ ∧
    (⟨100, 300000, [⟨"http://x|adblock=true", ["y"], 0⟩, ⟨"zzz|", ["o"], 0⟩]⟩ :
        Cache (List String))
      ≠ ⟨100, 300000, [⟨"zzz|", ["o"], 0⟩, ⟨"http://x|adblock=true", ["y"], 0⟩]⟩ ∧
    (handle (fun _ _ _ _ => .error "unused")
        (fun _ _ _ => .ok ⟨"bytes", some "text/html", 200⟩)
        ⟨some (.one "http://x"), none, some "1", none, []⟩
        ⟨100, 300000, [⟨"zzz|", ["o"], 0⟩, ⟨"http://x|adblock=true", ["y"], 0⟩]⟩ 0).response
      = ⟨200, .raw 200 (some "text/html") "bytes"⟩ := by
  refine ⟨by decide, by decide, by decide⟩

/-- C10 (amended): a raw-mode request never stores its result in the
cache and never serves a cached result: its response is identical for
any two cache contents, the cache after the request is exactly the cache
after the unconditional lookup (no store is applied), and exactly one
fresh upstream fetch and no rendered fetch are performed. The lookup
itself, however, can reorder LRU recency or drop an expired entry, so
the cache is not always left unchanged. -/
theorem C10_raw_cache_independence
    (render : UrlParam → Option String → Bool → List (String × String) →
      Except String (List String))
    (rawFetch : String → Bool → List (String × String) →
      Except String (RawResponse String))
    (c1 c2 : Cache (List String)) (now : Nat) (u1 : String)
    (rawp adb : Option String) (opts : List (String × String))
    (h1 : (u1 == "") = false) (hT : shouldReturnRaw rawp = true) :
    ((handle render rawFetch ⟨some (.one u1), none, rawp, adb, opts⟩ c1 now).response
        = (handle render rawFetch ⟨some (.one u1), none, rawp, adb, opts⟩ c2 now).response) ∧
    ((handle render rawFetch ⟨some (.one u1), none, rawp, adb, opts⟩ c1 now).cache
        = (Cache.lookup c1 (cacheKey (.one u1) (("adblock",
            if shouldEnableAdblock adb then "true" else "false") :: opts)) now).2) ∧
    (handle render rawFetch ⟨some (.one u1), none, rawp, adb, opts⟩ c1 now).rawCalls = 1 ∧
    (handle render rawFetch ⟨some (.one u1), none, rawp, adb, opts⟩ c1 now).renderCalls = 0 := by
  cases hr : rawFetch u1 (shouldEnableAdblock adb) opts <;>
    simp [handle, urlParamFalsy, h1, hT, hr]

/-- Witness for C10: a concrete raw request evaluated against two
different caches gives the same response, performs one raw fetch, and
ends with the cache produced by the lookup alone. -/
theorem C10_raw_cache_independence_witness :
    ((handle (fun _ _ _ _ => (.error "unused" : Except String (List String)))
        (fun _ _ _ => .ok ⟨"bytes", some "text/html", 200⟩)
        ⟨some (.one "http://x"), none, some "1", none, []⟩ ⟨100, 300000, []⟩ 0).response
        = (handle (fun _ _ _ _ => .error "unused")
            (fun _ _ _ => .ok ⟨"bytes", some "text/html", 200⟩)
            ⟨some (.one "http://x"), none, some "1", none, []⟩
            ⟨100, 300000, [⟨"http://x|adblock=true", ["y"], 0⟩]⟩ 0).response) ∧
    ((handle (fun _ _ _ _ => .error "unused")
        (fun _ _ _ => .ok ⟨"bytes", some "text/html", 200⟩)
        ⟨some (.one "http://x"), none, some "1", none, []⟩ ⟨100, 300000, []⟩ 0).cache
        = (Cache.lookup ⟨100, 300000, []⟩ (cacheKey (.one "http://x") (("adblock",
            if shouldEnableAdblock none then "true" else "false") :: [])) 0).2) ∧
    (handle (fun _ _ _ _ => .error "unused")
        (fun _ _ _ => .ok ⟨"bytes", some "text/html", 200⟩)
        ⟨some (.one "http://x"), none, some "1", none, []⟩
        ⟨100, 300000, []⟩ 0).rawCalls = 1 ∧
    (handle (fun _ _ _ _ => .error "unused")
        (fun _ _ _ => .ok ⟨"bytes", some "text/html", 200⟩)
        ⟨some (.one "http://x"), none, some "1", none, []⟩
        ⟨100, 300000, []⟩ 0).renderCalls = 0 :=
  C10_raw_cache_independence (fun _ _ _ _ => .error "unused")
    (fun _ _ _ => .ok ⟨"bytes", some "text/html", 200⟩)
    ⟨100, 300000, []⟩ ⟨100, 300000, [⟨"http://x|adblock=true", ["y"], 0⟩]⟩
    0 "http://x" (some "1") none [] rfl (by decide)

end PuppeteerHono
